import Mathlib

/-!
# GrantMaster — verification of the pipeline-orchestration engine

Shallow embedding of the GrantMaster repository (`GrantMaster/core` and
`GrantMaster/agents`): the workflow state record, the node functions, the
routing functions, the graph executor built in `GraphOrchestrator.__init__`,
and the persistence gateway (`DataManager`).

Modelling conventions:
* Python `None` is `Option.none`; a `str` field that may be `None` is
  `Option String`.  All states constructed by the code set every key of the
  `GrantMasterState` TypedDict, so `state.get(k, default)` returns the stored
  value (possibly `None`) and the default never fires; the model therefore
  stores each field directly.
* Python truthiness of an optional string (`if x:`) is `truthyStr`:
  `None` and `""` are falsy.  Truthiness of an optional dict is
  `truthyDict`: `None` and `{}` are falsy.
* Python dicts of strings are association lists (`Dict`); the Selenium driver
  session is abstracted to `Option Unit` (present/absent), which is all the
  engine inspects.
* External collaborators (OpenAI calls, Selenium, sqlite) are oracles: an
  `Env` record fixes their outcome (returned value or raised exception), and
  every node is a pure function of the state and these outcomes, exactly
  following the Python control flow.
* Exceptions that escape a function (only `AttributeError` from
  `None.lower()` matters here) are modelled with `Except`.
* Log/error message strings follow the source texts; quote characters that
  Python f-strings put around interpolated values are elided.
-/

namespace GrantMaster

/-- Python dict with string keys and string values (association list,
first binding wins, as for a dict built once). -/
abbrev Dict := List (String × String)

/-- Python `d.get(k)`: the value bound to `k`, or `None`. -/
def dictGet (d : Dict) (k : String) : Option String :=
  (d.find? (fun p => p.1 == k)).map Prod.snd

/-- Python truthiness of an optional string: `None` and `""` are falsy. -/
def truthyStr : Option String → Bool
  | none => false
  | some s => s != ""

/-- Python truthiness of an optional dict: `None` and `{}` are falsy. -/
def truthyDict : Option Dict → Bool
  | none => false
  | some d => !d.isEmpty

/-- Python truthiness of an optional opaque object (a driver session):
only `None` is falsy. -/
def truthyObj : Option Unit → Bool
  | none => false
  | some _ => true

/-- Does the first char list lead the second one (leading-segment test)? -/
def leadsWith : List Char → List Char → Bool
  | [], _ => true
  | _ :: _, [] => false
  | p :: ps, h :: hs => (p == h) && leadsWith ps hs

/-- Auxiliary for Python substring containment, over char lists. -/
def containsChars (n : List Char) : List Char → Bool
  | [] => n.isEmpty
  | c :: rest => leadsWith n (c :: rest) || containsChars n rest

/-- Python `needle in hay` on strings. -/
def pyInStr (needle hay : String) : Bool :=
  containsChars needle.data hay.data

/-- Python `s.strip()`: remove leading and trailing whitespace. -/
def pyStrip (s : String) : String :=
  ⟨(((s.data.dropWhile Char.isWhitespace).reverse.dropWhile Char.isWhitespace).reverse)⟩

/-- Python `s.lower()` (ASCII case mapping suffices for the texts here). -/
def pyToLower (s : String) : String :=
  ⟨s.data.map Char.toLower⟩

/-- Python `s.startswith(p)`. -/
def pyStartsWith (s p : String) : Bool :=
  leadsWith p.data s.data

/-- Exceptions that the embedded code can raise out of a routing call. -/
inductive PyExc where
  /-- `AttributeError` — e.g. `None` has no attribute `lower`. -/
  | attributeError
deriving DecidableEq, Repr

/-- One extracted grant opportunity: a map in
`state["extracted_grant_opportunities"]`.  The first eight fields come from
extraction; the analysis node adds the `analysis_*`/`database_id` keys
(absent = `none`). -/
structure Grant where
  title : Option String := none
  grant_title : Option String := none
  funder : Option String := none
  deadline : Option String := none
  description : Option String := none
  eligibility : Option String := none
  focus_areas : Option String := none
  raw_research_data : Option String := none
  analysis_rationale : Option String := none
  analysis_suitability_score : Option Int := none
  analysis_status : Option String := none
  analysis_error : Option String := none
  database_id : Option Nat := none
deriving DecidableEq, Repr

/-- The `GrantMasterState` TypedDict (`GrantMaster/core/graph_state.py`).
`current_grant_opportunity_id` keeps the raw dict value it was extracted
from, so it is a string here. -/
structure GMState where
  organization_profile : Option Dict
  research_website_url : Option String
  research_login_credentials : Option Dict
  authenticated_driver_session : Option Unit
  extracted_grant_opportunities : Option (List Grant)
  current_grant_opportunity_id : Option String
  current_grant_details : Option Dict
  analysis_results : Option Dict
  current_section_name : Option String
  current_draft_content : Option String
  editor_feedback : Option String
  iteration_count : Int
  error_message : Option String
  log_messages : List String
  next_node_to_call : Option String
deriving DecidableEq, Repr

/-! ## Review routing (`GraphOrchestrator.should_redraft_or_save`) -/

/-- The fixed approval keyword list of `should_redraft_or_save`. -/
def approvalKeywords : List String :=
  ["looks good", "approved", "no changes needed", "ready to save"]

/-- `max_iterations` constant of the writing loop. -/
def maxIterations : Int := 3

/-- `GraphOrchestrator.should_redraft_or_save`.  The Python body first runs
`state.get('editor_feedback', '').lower()`; when the key holds `None` this
raises `AttributeError` before any routing decision, hence the `Except`
codomain.  Otherwise it routes on error, iteration cap, approval keywords and
the whitespace-only check, in source order. -/
def should_redraft_or_save (state : GMState) : Except PyExc String :=
  match state.editor_feedback with
  | none => .error .attributeError
  | some fb =>
    let editor_feedback := pyToLower fb
    if truthyStr state.error_message then .ok "handle_error"
    else if maxIterations ≤ state.iteration_count then .ok "save_section"
    else
      let requiresRedraft := !(approvalKeywords.any (fun k => pyInStr k editor_feedback))
      let requiresRedraft := if pyStrip editor_feedback == "" then true else requiresRedraft
      if requiresRedraft then .ok "draft_section_again" else .ok "save_section"

/-- Modelled from the claim text of C1 (spec §4.2): the documented decision
procedure for routing after review — error wins, then the iteration cap,
then: persist iff the lowercased feedback contains an approval phrase,
otherwise draft again (empty/whitespace feedback included). -/
def specReviewRouting (errorSet : Bool) (iter : Int) (feedback : String) : String :=
  if errorSet then "handle_error"
  else if maxIterations ≤ iter then "save_section"
  else if approvalKeywords.any (fun k => pyInStr k (pyToLower feedback)) then "save_section"
  else "draft_section_again"

/-! ## Collaborator and gateway outcomes (oracles) -/

/-- Outcome of `AnalystAgent.analyze_suitability` for one grant: a parsed
analysis dict, a dict with an `error` key, or a raised exception. -/
inductive AnalysisOutcome where
  | ok (rationale : String) (score : Int) (status : String)
  | err (detail : String)
  | raises (msg : String)
deriving DecidableEq, Repr

/-- Outcome of a `DataManager` save call: the returned value
(`lastrowid` or `None`), or a raised exception. -/
inductive SaveOutcome where
  | ret (id : Option Nat)
  | raises (msg : String)
deriving DecidableEq, Repr

/-- Outcome of `DataManager.update_grant_analysis` (its boolean return is
ignored by the node, so only raising matters). -/
inductive UpdateOutcome where
  | ok
  | raises (msg : String)
deriving DecidableEq, Repr

/-- Per-item oracle for `node_analyze_opportunities`. -/
structure ItemEnv where
  analysis : AnalysisOutcome
  saveRes : SaveOutcome
  updateRes : UpdateOutcome
deriving Repr

/-- Python truthiness of an optional integer id (`if grant_id:`). -/
def truthyNat : Option Nat → Bool
  | none => false
  | some n => n != 0

/-- Python truthiness of an optional list (`if not extracted_opportunities:`). -/
def truthyList : Option (List Grant) → Bool
  | none => false
  | some l => !l.isEmpty

/-- Collaborator / gateway invocations a node performs, in order. -/
inductive Effect where
  | analyzeCall (g : Grant)
  | saveGrantCall (g : Grant)
  | updateGrantCall (id : Nat)
deriving DecidableEq, Repr

/-! ## Score node (`node_analyze_opportunities`, analyst_agent.py) -/

/-- `grant_info.get('title', grant_info.get('grant_title', 'Unknown Title'))`. -/
def titleForLog (g : Grant) : String :=
  (g.title.getD (g.grant_title.getD "Unknown Title"))

/-- One iteration of the batch loop of `node_analyze_opportunities`: the
(in-place updated) grant dict, whether `processed_count` was incremented, the
appended log lines, and the collaborator/gateway calls made.  Follows the
`try`/`except` structure of the source: an exception from any of the three
calls lands in the per-item handler, which writes `analysis_error` and
continues. -/
def processItem (ie : ItemEnv) (g : Grant) : Grant × Bool × List String × List Effect :=
  let t := titleForLog g
  match ie.analysis with
  | .raises msg =>
      ({ g with analysis_error := some msg }, false,
       ["Unexpected error processing grant " ++ t ++ ": " ++ msg],
       [.analyzeCall g])
  | .err detail =>
      ({ g with analysis_error := some detail }, false,
       ["Analysis failed for grant " ++ t ++ ": " ++ detail],
       [.analyzeCall g])
  | .ok rationale score status =>
      let g1 := { g with analysis_rationale := some rationale,
                         analysis_suitability_score := some score,
                         analysis_status := some status }
      match ie.saveRes with
      | .raises msg =>
          ({ g1 with analysis_error := some msg }, false,
           ["Unexpected error processing grant " ++ t ++ ": " ++ msg],
           [.analyzeCall g, .saveGrantCall g1])
      | .ret id? =>
          if truthyNat id? then
            let n := id?.getD 0
            let g2 := { g1 with database_id := some n }
            match ie.updateRes with
            | .raises msg =>
                ({ g2 with analysis_error := some msg }, false,
                 ["Grant " ++ t ++ " saved with ID: " ++ toString n ++ ".",
                  "Unexpected error processing grant " ++ t ++ ": " ++ msg],
                 [.analyzeCall g, .saveGrantCall g1, .updateGrantCall n])
            | .ok =>
                (g2, true,
                 ["Grant " ++ t ++ " saved with ID: " ++ toString n ++ ".",
                  "Analysis status " ++ status ++ " updated for grant ID: " ++ toString n ++ "."],
                 [.analyzeCall g, .saveGrantCall g1, .updateGrantCall n])
          else
            ({ g1 with analysis_error := some "Database save failed" }, false,
             ["Failed to save grant " ++ t ++ " to database."],
             [.analyzeCall g, .saveGrantCall g1])

/-- The batch loop: processed grants (same dicts, in iteration order),
`processed_count`, appended log lines, and effects.  The oracle is indexed by
position in the list. -/
def analyzeLoop (items : Nat → ItemEnv) : List Grant → List Grant × Nat × List String × List Effect
  | [] => ([], 0, [], [])
  | g :: rest =>
      let r := processItem (items 0) g
      let rr := analyzeLoop (fun i => items (i + 1)) rest
      (r.1 :: rr.1, (if r.2.1 then 1 else 0) + rr.2.1,
       r.2.2.1 ++ rr.2.2.1, r.2.2.2 ++ rr.2.2.2)

/-- Error message of the missing-profile prerequisite check. -/
def profileMissingMsg : String :=
  "Cannot analyze opportunities: Organization profile is missing from state."

/-- Batch summary log line of `node_analyze_opportunities`. -/
def analyzeSummary (cnt total : Nat) : String :=
  "Analysis and saving process complete. " ++ toString cnt ++
    " grants successfully processed and saved with full analysis." ++
    (if cnt != total then
        " " ++ toString (total - cnt) ++ " grants had issues during processing."
      else "")

/-- `node_analyze_opportunities` (analyst_agent.py): the state after merging
the returned partial update, paired with the collaborator/gateway calls made.
The final return of the batch path sets `error_message` to `None`
unconditionally. -/
def node_analyze_opportunities (items : Nat → ItemEnv) (s : GMState) :
    GMState × List Effect :=
  if !truthyDict s.organization_profile then
    ({ s with error_message := some profileMissingMsg,
              log_messages := s.log_messages ++ [profileMissingMsg] }, [])
  else if !truthyList s.extracted_grant_opportunities then
    ({ s with log_messages :=
                s.log_messages ++ ["No extracted grant opportunities to analyze."],
              extracted_grant_opportunities := some [],
              error_message := none }, [])
  else
    let grants := s.extracted_grant_opportunities.getD []
    let r := analyzeLoop items grants
    ({ s with extracted_grant_opportunities := some r.1,
              log_messages := s.log_messages ++ r.2.2.1 ++
                [analyzeSummary r.2.1 grants.length],
              error_message := none }, r.2.2.2)

/-- The caller's state object as it stands after `node_analyze_opportunities`
returns, before any engine merge: the loop writes `analysis_*` /
`database_id` keys into the grant dicts in place (`grant_info[...] = ...`),
and those dicts are the elements of the list aliased from the input state;
`log_messages` is copied (`list(...)`) before appending, and no other field
of the input state is written. -/
def analyzeInputAfter (items : Nat → ItemEnv) (s : GMState) : GMState :=
  if !truthyDict s.organization_profile then s
  else if !truthyList s.extracted_grant_opportunities then s
  else
    let processed := (analyzeLoop items (s.extracted_grant_opportunities.getD [])).1
    { s with extracted_grant_opportunities := some processed }

/-! ## Draft node (`node_draft_section`, writer_agent.py) -/

/-- Outcome of a text-producing collaborator call
(`WriterAgent.draft_section` / `EditorAgent.review_draft`): the returned
string (the agent catches API failures internally and returns a string
starting with a double-slash Error marker), or a raised exception. -/
inductive AgentTextOutcome where
  | ret (text : String)
  | raises (msg : String)
deriving DecidableEq, Repr

/-- Prerequisite error message of `node_draft_section`. -/
def draftPrereqMsg : String :=
  "Cannot draft section: Missing current_grant_details, organization_profile, or current_section_name in state."

/-- `node_draft_section` (writer_agent.py), post-merge state.  On the
prerequisite failure it returns the incoming `iteration_count` unchanged;
on every path that reaches the collaborator it returns
`iteration_count + 1`, whether the collaborator succeeded, returned an
error-marker string, or raised. -/
def node_draft_section (out : AgentTextOutcome) (s : GMState) : GMState :=
  if !truthyDict s.current_grant_details || !truthyDict s.organization_profile
      || !truthyStr s.current_section_name then
    { s with error_message := some draftPrereqMsg,
             log_messages := s.log_messages ++ [draftPrereqMsg],
             current_draft_content := some "" }
  else
    let name := s.current_section_name.getD ""
    let newIter := s.iteration_count + 1
    match out with
    | .ret text =>
        if pyStartsWith text "// Error" then
          let m := "WriterAgent failed to draft section " ++ name ++ ": " ++ text
          { s with current_draft_content := some "",
                   iteration_count := newIter,
                   log_messages := s.log_messages ++ [m],
                   error_message := some m }
        else
          let m := "Drafted section (Iteration " ++ toString newIter ++ "): " ++ name ++ "."
          { s with current_draft_content := some text,
                   iteration_count := newIter,
                   log_messages := s.log_messages ++ [m],
                   error_message := none }
    | .raises msg =>
        let m := "Unexpected error in node_draft_section for " ++ name ++ ": " ++ msg
        { s with current_draft_content := some "",
                 iteration_count := newIter,
                 log_messages := s.log_messages ++ [m],
                 error_message := some m }

/-! ## Review node (`node_review_draft`, editor_agent.py) -/

/-- `node_review_draft` (editor_agent.py), post-merge state. -/
def node_review_draft (out : AgentTextOutcome) (s : GMState) : GMState :=
  if !truthyStr s.current_section_name then
    let m := "Cannot review draft: Missing current_section_name in state."
    { s with error_message := some m,
             log_messages := s.log_messages ++ [m],
             editor_feedback := some "" }
  else
    let name := s.current_section_name.getD ""
    if !truthyStr s.current_draft_content then
      let m := "Cannot review draft for section " ++ name ++
        ": Missing current_draft_content in state or content is empty."
      { s with error_message := some m,
               log_messages := s.log_messages ++ [m],
               editor_feedback := some "" }
    else
      match out with
      | .ret text =>
          if pyStartsWith text "// Error" then
            let m := "EditorAgent failed to review section " ++ name ++ ": " ++ text
            { s with editor_feedback := some "",
                     log_messages := s.log_messages ++ [m],
                     error_message := some m }
          else
            let m := "Feedback received for section: " ++ name ++ " from editor."
            { s with editor_feedback := some text,
                     log_messages := s.log_messages ++ [m],
                     error_message := none }
      | .raises msg =>
          let m := "Unexpected error in node_review_draft for " ++ name ++ ": " ++ msg
          { s with editor_feedback := some "",
                   log_messages := s.log_messages ++ [m],
                   error_message := some m }

/-- The caller's state object after `node_review_draft` returns: the node
copies `log_messages` before appending and only reads everything else, so
the input state is untouched. -/
def reviewInputAfter (_out : AgentTextOutcome) (s : GMState) : GMState := s

/-! ## Authenticate node (`node_perform_login`, researcher_agent.py) -/

/-- Outcome of `perform_website_login`: a driver plus internal logs, no
driver plus internal logs, or a raised exception (in which case the tuple
assignment never happened, so no internal logs were captured). -/
inductive LoginOutcome where
  | driver (internalLogs : List String)
  | noDriver (internalLogs : List String)
  | raises (msg : String)
deriving DecidableEq, Repr

/-- `node_perform_login` (researcher_agent.py), post-merge state. -/
def node_perform_login (out : LoginOutcome) (s : GMState) : GMState :=
  if !truthyStr s.research_website_url then
    let m := "Login failed: research_website_url not found in state."
    { s with error_message := some m,
             authenticated_driver_session := none,
             log_messages := s.log_messages ++ [m] }
  else if !truthyDict s.research_login_credentials then
    let m := "Login failed: research_login_credentials not found in state."
    { s with error_message := some m,
             authenticated_driver_session := none }
  else
    let raw := s.research_website_url.getD ""
    let hasScheme := pyStartsWith raw "http://" || pyStartsWith raw "https://"
    let url := if hasScheme then raw else "https://" ++ raw
    let schemeLog :=
      if hasScheme then "Attempting login with provided URL: " ++ url
      else "URL scheme missing, prepended https://. Original: " ++ raw ++ ", Used: " ++ url
    let logs1 := s.log_messages ++ [schemeLog]
    let creds := s.research_login_credentials.getD []
    if !truthyStr (dictGet creds "username") || !truthyStr (dictGet creds "password") then
      let m := "Login failed: Username or password not found in research_login_credentials."
      { s with error_message := some m,
               authenticated_driver_session := none,
               log_messages := logs1 ++ [m] }
    else
      match out with
      | .driver internalLogs =>
          let m := "Login successful to " ++ url ++ "."
          { s with authenticated_driver_session := some (),
                   log_messages := logs1 ++ internalLogs ++ [m],
                   error_message := none }
      | .noDriver internalLogs =>
          let failLog := "Login attempt to " ++ url ++
            " failed internally (driver not returned). See appended logs for details from perform_website_login."
          let m := "Login failed for " ++ url ++
            ". Driver not returned by perform_website_login. Check appended logs."
          { s with error_message := some m,
                   authenticated_driver_session := none,
                   log_messages := logs1 ++ internalLogs ++ [failLog] }
      | .raises msg =>
          let m := "An unexpected error occurred in node_perform_login while calling or processing result from perform_website_login for "
            ++ url ++ ": " ++ msg
          { s with error_message := some m,
                   authenticated_driver_session := none,
                   log_messages := logs1 ++ [m] }

/-! ## Extract node (`node_research_and_extract`, researcher_agent.py) -/

/-- Outcome of `WebSleuthAgent.research_and_extract`: results list plus the
agent's internal logs, or a raised exception (before which `ws_logs` was
still empty). -/
inductive ResearchOutcome where
  | ret (grants : List Grant) (wsLogs : List String)
  | raises (msg : String)
deriving DecidableEq, Repr

/-- `node_research_and_extract` (researcher_agent.py), post-merge state.
`pagePeekLogs` are the log lines the initial page-info `try` block appends
when a driver is present (their text depends on the live driver). -/
def node_research_and_extract (out : ResearchOutcome) (pagePeekLogs : List String)
    (s : GMState) : GMState :=
  let logs0 := s.log_messages ++
    (if truthyObj s.authenticated_driver_session then pagePeekLogs
     else ["Research node: Authenticated driver not found. Skipping initial page logging."])
  if !truthyObj s.authenticated_driver_session then
    let m := "Cannot research, not logged in."
    { s with error_message := some m,
             extracted_grant_opportunities := some [],
             log_messages := logs0 ++ ["Research node: ERROR - " ++ m] }
  else
    let callLog := "Research node: Calling WebSleuthAgent.research_and_extract with task: Find relevant grant opportunities"
    match out with
    | .ret grants wsLogs =>
        let m := "Research node: WebSleuthAgent finished. Found " ++
          toString grants.length ++ " potential opportunities."
        { s with extracted_grant_opportunities := some grants,
                 log_messages := logs0 ++ [callLog] ++ wsLogs ++ [m],
                 error_message := none }
    | .raises msg =>
        let m := "An unexpected error occurred in node_research_and_extract: " ++ msg
        { s with extracted_grant_opportunities := some [],
                 log_messages := logs0 ++ [callLog] ++ ["Research node: ERROR - " ++ m],
                 error_message := some m }

/-! ## Error-handler and persist nodes (graph_orchestrator.py) -/

/-- `GraphOrchestrator.handle_error_node`: appends one log entry and returns
only `log_messages`, so the merged state keeps `error_message` exactly as it
was.  (A `None` value interpolates as the text `None`.) -/
def handle_error_node (s : GMState) : GMState :=
  let text := match s.error_message with
    | some m => m
    | none => "None"
  { s with log_messages := s.log_messages ++ ["ERROR ENCOUNTERED IN GRAPH: " ++ text] }

/-- `GraphOrchestrator.save_section_node`, post-merge state. -/
def save_section_node (out : SaveOutcome) (s : GMState) : GMState :=
  if !truthyStr s.current_grant_opportunity_id then
    let m := "Save section failed: Missing current_grant_opportunity_id in state."
    { s with log_messages := s.log_messages ++ [m], error_message := some m }
  else if !truthyStr s.current_section_name then
    let m := "Save section failed: Missing current_section_name in state."
    { s with log_messages := s.log_messages ++ [m], error_message := some m }
  else if !truthyStr s.current_draft_content then
    let m := "Save section failed: Missing or empty current_draft_content in state."
    { s with log_messages := s.log_messages ++ [m], error_message := some m }
  else
    let name := s.current_section_name.getD ""
    match out with
    | .ret id? =>
        if truthyNat id? then
          let m := "Section " ++ name ++ " (Version " ++ toString s.iteration_count ++
            ") saved to database with ID: " ++ toString (id?.getD 0) ++
            " for grant ID " ++ s.current_grant_opportunity_id.getD "" ++ "."
          { s with log_messages := s.log_messages ++ [m], error_message := none }
        else
          let m := "Failed to save section " ++ name ++ " (Version " ++
            toString s.iteration_count ++ ") to database for grant ID " ++
            s.current_grant_opportunity_id.getD "" ++ ". DataManager returned None."
          { s with log_messages := s.log_messages ++ [m], error_message := some m }
    | .raises msg =>
        let m := "Unexpected error in save_section_node for section " ++ name ++ ": " ++ msg
        { s with log_messages := s.log_messages ++ [m], error_message := some m }

/-! ## The compiled graph (`GraphOrchestrator.__init__`)

Node identifiers as added with `add_node`; edges and routing exactly as
registered.  The single entry point of the compiled graph is `login`
(`set_entry_point('login')`), for both workflows. -/

/-- Node names registered on the StateGraph. -/
inductive NodeId where
  | login
  | research
  | analyze_opportunities
  | draft_section
  | edit_section
  | save_section
  | handle_error
deriving DecidableEq, Repr

/-- All collaborator/gateway oracles for one workflow invocation.  The
writer/editor oracles are indexed by the iteration count at node entry, the
analyst items by position in the batch. -/
structure Env where
  loginRes : LoginOutcome
  pagePeekLogs : List String
  researchRes : ResearchOutcome
  items : Nat → ItemEnv
  writer : Nat → AgentTextOutcome
  editor : Nat → AgentTextOutcome
  sectionSave : SaveOutcome

/-- Execute one node on the accumulated state, returning the state with the
node's partial update merged (shallow merge, as LangGraph does). -/
def execNode (env : Env) : NodeId → GMState → GMState
  | .login, s => node_perform_login env.loginRes s
  | .research, s => node_research_and_extract env.researchRes env.pagePeekLogs s
  | .analyze_opportunities, s => (node_analyze_opportunities env.items s).1
  | .draft_section, s => node_draft_section (env.writer s.iteration_count.toNat) s
  | .edit_section, s => node_review_draft (env.editor s.iteration_count.toNat) s
  | .save_section, s => save_section_node env.sectionSave s
  | .handle_error, s => handle_error_node s

/-- The routing registered after each node (`add_conditional_edges` /
`add_edge`): `none` is the terminal marker END.  After `edit_section` the
routing calls `should_redraft_or_save`; if that call raises, the exception
escapes `invoke` and no further node runs, which the executor also renders
as `none`. -/
def routeAfter : NodeId → GMState → Option NodeId
  | .login, s =>
      if truthyObj s.authenticated_driver_session then some .research
      else some .handle_error
  | .research, s =>
      if !truthyStr s.error_message then some .analyze_opportunities
      else some .handle_error
  | .analyze_opportunities, s =>
      if !truthyStr s.error_message then none else some .handle_error
  | .draft_section, _ => some .edit_section
  | .edit_section, s =>
      match should_redraft_or_save s with
      | .ok r =>
          if r == "draft_section_again" then some .draft_section
          else if r == "save_section" then some .save_section
          else if r == "handle_error" then some .handle_error
          else none
      | .error _ => none
  | .save_section, _ => none
  | .handle_error, _ => none

/-- Fuel-bounded execution trace from a given node: the list of
(node executed, accumulated state after its update was merged). -/
def runTrace (env : Env) : Nat → GMState → NodeId → List (NodeId × GMState)
  | 0, _, _ => []
  | fuel + 1, s, n =>
      let s1 := execNode env n s
      (n, s1) ::
        (match routeAfter n s1 with
         | none => []
         | some n2 => runTrace env fuel s1 n2)

/-- The state `app.invoke` returns: the last accumulated state of the trace
(the initial state if the trace is empty). -/
def finalState (init : GMState) (tr : List (NodeId × GMState)) : GMState :=
  match tr.getLast? with
  | some p => p.2
  | none => init

/-! ## Workflow entry points (`run_research_workflow` / `run_writing_workflow`) -/

/-- The initial state built by `run_research_workflow` (lines 162-178). -/
def researchInit (url : String) (creds : Dict) (profile : Dict) : GMState where
  organization_profile := some profile
  research_website_url := some url
  research_login_credentials := some creds
  authenticated_driver_session := none
  extracted_grant_opportunities := some []
  current_grant_opportunity_id := none
  current_grant_details := none
  analysis_results := none
  current_section_name := none
  current_draft_content := none
  editor_feedback := none
  iteration_count := 0
  error_message := none
  log_messages := ["Research workflow started."]
  next_node_to_call := none

/-- The initial state built by `run_writing_workflow` (lines 205-221):
`iteration_count` seeded to 0, record id extracted from the caller's
details dict, section name and profile from the caller's arguments, and
`next_node_to_call` set to the string `draft_section` (a state field the
compiled graph never reads). -/
def writingInit (details : Option Dict) (profile : Dict) (sectionName : String) : GMState where
  organization_profile := some profile
  research_website_url := none
  research_login_credentials := none
  authenticated_driver_session := none
  extracted_grant_opportunities := some []
  current_grant_opportunity_id :=
    if truthyDict details then dictGet (details.getD []) "id" else none
  current_grant_details := details
  analysis_results := none
  current_section_name := some sectionName
  current_draft_content := none
  editor_feedback := none
  iteration_count := 0
  error_message := none
  log_messages := ["Writing workflow started for section: " ++ sectionName ++ "."]
  next_node_to_call := some "draft_section"

/-- Ample fuel for this graph (the research pipeline is acyclic and short;
the writing loop, were it reachable, is cut off at three iterations). -/
def defaultFuel : Nat := 12

/-- `run_research_workflow`: invoke the compiled graph at its entry point
`login` on the research initial state. -/
def researchTrace (env : Env) (url : String) (creds : Dict) (profile : Dict) :
    List (NodeId × GMState) :=
  runTrace env defaultFuel (researchInit url creds profile) .login

/-- `run_writing_workflow`: invoke the compiled graph — whose sole entry
point is `login` — on the writing initial state. -/
def writingTrace (env : Env) (details : Option Dict) (profile : Dict)
    (sectionName : String) : List (NodeId × GMState) :=
  runTrace env defaultFuel (writingInit details profile sectionName) .login

/-! ## Persistence gateway (`DataManager`, core/data_manager.py)

Only the tables and operations the claims touch are modelled:
`organization_profile` (save) and `grant_application_sections`
(save / get).  Row ids are `INTEGER PRIMARY KEY AUTOINCREMENT`, modelled
with a monotone per-table counter.  Sqlite-level errors (which the methods
catch and turn into `False`/`None`) are outside the model: every modelled
call is the success path. -/

/-- A row of `organization_profile`. -/
structure ProfileRow where
  id : Nat
  name : String
  mission : String
  projects : String
  needs : String
  target_demographics : String
deriving DecidableEq, Repr

/-- A row of `grant_application_sections`. -/
structure SectionRow where
  id : Nat
  grant_opportunity_id : Int
  section_name : String
  draft_content : String
  version : Int
  feedback : String
deriving DecidableEq, Repr

/-- The modelled database state. -/
structure DataDB where
  profileSeq : Nat := 0
  profiles : List ProfileRow := []
  sectionSeq : Nat := 0
  sections : List SectionRow := []
deriving DecidableEq, Repr

/-- `DataManager.save_organization_profile`: `DELETE FROM
organization_profile` then `INSERT` the new row (the method returns `True`
on this path). -/
def save_organization_profile (db : DataDB) (name mission projects needs
    target_demographics : String) : DataDB :=
  let afterDel : List ProfileRow := []
  let newId := db.profileSeq + 1
  { db with profiles := afterDel ++ [⟨newId, name, mission, projects, needs, target_demographics⟩],
            profileSeq := newId }

/-- `DataManager.save_section_draft`: a plain `INSERT` of a new row;
returns the updated database and `cursor.lastrowid`. -/
def save_section_draft (db : DataDB) (grant_opportunity_id : Int)
    (section_name draft_content : String) (version : Int) (feedback : String) :
    DataDB × Nat :=
  let newId := db.sectionSeq + 1
  let row : SectionRow :=
    ⟨newId, grant_opportunity_id, section_name, draft_content, version, feedback⟩
  ({ db with sections := db.sections ++ [row], sectionSeq := newId }, newId)

/-- Rows matching the `WHERE grant_opportunity_id = ? AND section_name = ?`
filter, in table order. -/
def matchingSections (db : DataDB) (gid : Int) (sectionName : String) :
    List SectionRow :=
  db.sections.filter (fun r => r.grant_opportunity_id == gid && r.section_name == sectionName)

/-- `ORDER BY version DESC LIMIT 1` then `fetchone`: some row of maximal
version among the candidates (ties broken by an unspecified scan order;
this model keeps the earliest such row). -/
def maxVersionRow : List SectionRow → Option SectionRow
  | [] => none
  | r :: rest =>
      match maxVersionRow rest with
      | none => some r
      | some b => if r.version < b.version then some b else some r

/-- `DataManager.get_section_draft`: a specific version, or the latest
version of the `(grant_opportunity_id, section_name)` pair when `version`
is `None`. -/
def get_section_draft (db : DataDB) (gid : Int) (sectionName : String)
    (version : Option Int) : Option SectionRow :=
  match version with
  | some v => ((matchingSections db gid sectionName).filter (fun r => r.version == v)).head?
  | none => maxVersionRow (matchingSections db gid sectionName)

/-! ## Helper lemmas -/

lemma mem_of_leadsWith : ∀ {n l : List Char}, leadsWith n l = true →
    ∀ c ∈ n, c ∈ l
  | [], _, _, c, hc => absurd hc (List.not_mem_nil c)
  | _ :: _, [], h, _, _ => by simp [leadsWith] at h
  | p :: ps, q :: hs, h, c, hc => by
      simp only [leadsWith, Bool.and_eq_true, beq_iff_eq] at h
      rcases List.mem_cons.mp hc with rfl | hc
      · exact h.1 ▸ List.mem_cons_self _ _
      · exact List.mem_cons_of_mem _ (mem_of_leadsWith h.2 c hc)

lemma mem_of_containsChars {n l : List Char} (h : containsChars n l = true) :
    ∀ c ∈ n, c ∈ l := by
  induction l with
  | nil =>
      simp only [containsChars, List.isEmpty_iff] at h
      simp [h]
  | cons a rest ih =>
      simp only [containsChars, Bool.or_eq_true] at h
      rcases h with h | h
      · exact mem_of_leadsWith h
      · exact fun c hc => List.mem_cons_of_mem _ (ih h c hc)

lemma pyStrip_empty_all_ws {s : String} (h : pyStrip s = "") :
    ∀ c ∈ s.data, c.isWhitespace := by
  have hdata : (((s.data.dropWhile Char.isWhitespace).reverse.dropWhile
      Char.isWhitespace).reverse) = [] := congrArg String.data h
  rw [List.reverse_eq_nil_iff, List.dropWhile_eq_nil_iff] at hdata
  intro c hc
  rw [← List.takeWhile_append_dropWhile (p := Char.isWhitespace) (l := s.data),
    List.mem_append] at hc
  rcases hc with hc | hc
  · exact List.mem_takeWhile_imp hc
  · exact hdata c (List.mem_reverse.mpr hc)

lemma approval_any_false_of_ws {fb : String} (h : pyStrip fb = "") :
    approvalKeywords.any (fun k => pyInStr k fb) = false := by
  by_contra hne
  rw [Bool.not_eq_false, List.any_eq_true] at hne
  obtain ⟨k, hk, hin⟩ := hne
  have hall := pyStrip_empty_all_ws h
  have hsub : ∀ c ∈ k.data, c ∈ fb.data := mem_of_containsChars hin
  simp only [approvalKeywords, List.mem_cons, List.not_mem_nil, or_false] at hk
  rcases hk with rfl | rfl | rfl | rfl
  · exact absurd (hall 'l' (hsub 'l' (by decide))) (by decide)
  · exact absurd (hall 'a' (hsub 'a' (by decide))) (by decide)
  · exact absurd (hall 'n' (hsub 'n' (by decide))) (by decide)
  · exact absurd (hall 'r' (hsub 'r' (by decide))) (by decide)

/-! ## Claim C1 -/

/-- Claim C1: whenever the review feedback is an actual string, the review
routing function `should_redraft_or_save` implements exactly the documented
decision procedure: error wins; else `iteration_count >= 3` forces the
persist/save id regardless of feedback; else, after lowercasing, it returns
the persist/save id iff the feedback contains one of the four approval
phrases, and the draft-again id otherwise — including for empty or
whitespace-only feedback. -/
theorem review_routing_matches_spec (s : GMState) (fb : String)
    (h : s.editor_feedback = some fb) :
    should_redraft_or_save s =
      Except.ok (specReviewRouting (truthyStr s.error_message) s.iteration_count fb) := by
  unfold should_redraft_or_save specReviewRouting
  rw [h]
  by_cases he : truthyStr s.error_message
  · simp [he]
  · simp only [he, if_false, Bool.false_eq_true]
    by_cases hi : maxIterations ≤ s.iteration_count
    · simp [hi]
    · simp only [hi, if_false]
      by_cases hws : pyStrip (pyToLower fb) = ""
      · have hany := approval_any_false_of_ws hws
        simp [hws, hany]
      · have hws2 : (pyStrip (pyToLower fb) == "") = false := by
          simpa using hws
        cases hany : approvalKeywords.any (fun k => pyInStr k (pyToLower fb)) <;>
          simp [hws2, hany]

/-- A concrete reachable review state used to instantiate theorems. -/
def sampleReviewState : GMState where
  organization_profile := some [("name", "Org")]
  research_website_url := none
  research_login_credentials := none
  authenticated_driver_session := none
  extracted_grant_opportunities := some []
  current_grant_opportunity_id := some "7"
  current_grant_details := some [("grant_title", "G")]
  analysis_results := none
  current_section_name := some "Needs Statement"
  current_draft_content := some "A draft."
  editor_feedback := some "This draft looks good!"
  iteration_count := 1
  error_message := none
  log_messages := []
  next_node_to_call := none

/-- Witness for C1 at a concrete state with approving feedback. -/
theorem review_routing_matches_spec_witness :
    should_redraft_or_save sampleReviewState = Except.ok "save_section" := by
  have h := review_routing_matches_spec sampleReviewState "This draft looks good!" rfl
  rw [h]
  rfl

/-! ## Claim C10 -/

/-- Claim C10: on a reachable state — the one `run_writing_workflow` itself
seeds, whose `error_message` is unset, whose `iteration_count` is below 3
and whose `editor_feedback` key is present but `None` — the review routing
function does not return a node identifier at all: evaluating
`state.get('editor_feedback', '').lower()` raises `AttributeError`, so the
routing function is not total over the state type. -/
theorem review_routing_raises_on_none_feedback :
    (writingInit (some [("id", "7")]) [("name", "Org")] "Needs Statement").error_message
        = none
    ∧ (writingInit (some [("id", "7")]) [("name", "Org")] "Needs Statement").iteration_count
        < 3
    ∧ (writingInit (some [("id", "7")]) [("name", "Org")] "Needs Statement").editor_feedback
        = none
    ∧ should_redraft_or_save (writingInit (some [("id", "7")]) [("name", "Org")] "Needs Statement")
        = Except.error PyExc.attributeError := by
  refine ⟨rfl, by decide, rfl, rfl⟩

/-! ## More helper lemmas: trace unfolding and the login node -/

lemma runTrace_succ (env : Env) (fuel : Nat) (s : GMState) (n : NodeId) :
    runTrace env (fuel + 1) s n =
      (n, execNode env n s) ::
        (match routeAfter n (execNode env n s) with
         | none => []
         | some n2 => runTrace env fuel (execNode env n s) n2) := rfl

lemma login_error_of_session {o : LoginOutcome} {s : GMState}
    (h : truthyObj (node_perform_login o s).authenticated_driver_session = true) :
    (node_perform_login o s).error_message = none := by
  by_cases h1 : (!truthyStr s.research_website_url) = true
  · simp [node_perform_login, h1, truthyObj] at h
  · by_cases h2 : (!truthyDict s.research_login_credentials) = true
    · simp [node_perform_login, h1, h2, truthyObj] at h
    · by_cases h3 : (!truthyStr (dictGet (s.research_login_credentials.getD []) "username")
          || !truthyStr (dictGet (s.research_login_credentials.getD []) "password")) = true
      · simp [node_perform_login, h1, h2, h3, truthyObj] at h
      · cases o with
        | driver l => simp [node_perform_login, h1, h2, h3]
        | noDriver l => simp [node_perform_login, h1, h2, h3, truthyObj] at h
        | raises m => simp [node_perform_login, h1, h2, h3, truthyObj] at h

/-! ## Claim C2 -/

/-- Claim C2 (evaluated at the code): `run_writing_workflow` does construct
its initial state with `iteration_count = 0` and the profile, record
details, record id and section name from the caller arguments — but the
compiled graph it invokes has `login` as its sole entry point
(`set_entry_point('login')`), and `next_node_to_call` is never consulted.
So every invocation executes the authenticate node first, which fails on the
missing research URL and routes straight to the error handler: the trace is
`[login, handle_error]` and the draft node is never invoked, contradicting
the claimed draft entry. -/
theorem run_writing_workflow_enters_login (env : Env) (details : Option Dict)
    (profile : Dict) (sect : String) (d : Dict) :
    (writingTrace env details profile sect).map Prod.fst
        = [NodeId.login, NodeId.handle_error]
    ∧ NodeId.draft_section ∉ (writingTrace env details profile sect).map Prod.fst
    ∧ (finalState (writingInit details profile sect)
          (writingTrace env details profile sect)).error_message
        = some "Login failed: research_website_url not found in state."
    ∧ (writingInit details profile sect).iteration_count = 0
    ∧ (writingInit details profile sect).organization_profile = some profile
    ∧ (writingInit details profile sect).current_grant_details = details
    ∧ (writingInit details profile sect).current_section_name = some sect
    ∧ (writingInit (some d) profile sect).current_grant_opportunity_id = dictGet d "id" := by
  refine ⟨rfl, ?_, rfl, rfl, rfl, rfl, rfl, ?_⟩
  · show NodeId.draft_section ∉ [NodeId.login, NodeId.handle_error]
    decide
  · cases d <;> rfl

/-! ## Claim C3 -/

/-- Claim C3: in every workflow execution (research or writing invocation of
the compiled graph), once `error_message` is truthy at some point of the
trace, the state finally returned to the caller carries exactly that error
message: no later node clears or replaces it.  Moreover the error-handler
node leaves `error_message` intact and only appends one entry to the log. -/
theorem error_never_dropped (env : Env) (url : String) (creds : Dict)
    (profile : Dict) (details : Option Dict) (sect : String) :
    (∀ p ∈ researchTrace env url creds profile,
        truthyStr p.2.error_message = true →
        (finalState (researchInit url creds profile)
            (researchTrace env url creds profile)).error_message = p.2.error_message)
    ∧ (∀ p ∈ writingTrace env details profile sect,
        truthyStr p.2.error_message = true →
        (finalState (writingInit details profile sect)
            (writingTrace env details profile sect)).error_message = p.2.error_message)
    ∧ (∀ t : GMState, (handle_error_node t).error_message = t.error_message
        ∧ ∃ e, (handle_error_node t).log_messages = t.log_messages ++ [e]) := by
  refine ⟨?_, ?_, fun t => ⟨rfl, ⟨_, rfl⟩⟩⟩
  · intro p hp
    by_cases hses : truthyObj (node_perform_login env.loginRes
        (researchInit url creds profile)).authenticated_driver_session = true
    case neg =>
      rw [Bool.not_eq_true] at hses
      have ht : researchTrace env url creds profile =
          [(NodeId.login, node_perform_login env.loginRes (researchInit url creds profile)),
           (NodeId.handle_error,
             handle_error_node (node_perform_login env.loginRes (researchInit url creds profile)))] := by
        show runTrace env (11 + 1) (researchInit url creds profile) .login = _
        rw [runTrace_succ]
        have hr : routeAfter .login (execNode env .login (researchInit url creds profile))
            = some .handle_error := by
          simp [routeAfter, execNode, hses]
        rw [hr]
        rfl
      rw [ht] at hp
      rcases List.mem_cons.mp hp with rfl | hp
      · intro _
        rw [ht]
        rfl
      · rcases List.mem_cons.mp hp with rfl | hp
        · intro _
          rw [ht]
          rfl
        · exact absurd hp (List.not_mem_nil p)
    case pos =>
      have herr1 := login_error_of_session hses
      by_cases h2 : truthyStr (node_research_and_extract env.researchRes env.pagePeekLogs
          (node_perform_login env.loginRes (researchInit url creds profile))).error_message = true
      case neg =>
        rw [Bool.not_eq_true] at h2
        by_cases h3 : truthyStr ((node_analyze_opportunities env.items
            (node_research_and_extract env.researchRes env.pagePeekLogs
              (node_perform_login env.loginRes (researchInit url creds profile)))).1).error_message = true
        case neg =>
          rw [Bool.not_eq_true] at h3
          have ht : researchTrace env url creds profile =
              [(NodeId.login, node_perform_login env.loginRes (researchInit url creds profile)),
               (NodeId.research, node_research_and_extract env.researchRes env.pagePeekLogs
                 (node_perform_login env.loginRes (researchInit url creds profile))),
               (NodeId.analyze_opportunities, (node_analyze_opportunities env.items
                 (node_research_and_extract env.researchRes env.pagePeekLogs
                   (node_perform_login env.loginRes (researchInit url creds profile)))).1)] := by
            show runTrace env (11 + 1) (researchInit url creds profile) .login = _
            rw [runTrace_succ]
            have hr : routeAfter .login (execNode env .login (researchInit url creds profile))
                = some .research := by
              simp [routeAfter, execNode, hses]
            rw [hr]
            show _ :: runTrace env (10 + 1) _ .research = _
            rw [runTrace_succ]
            have hr2 : routeAfter .research (execNode env .research
                (execNode env .login (researchInit url creds profile))) = some .analyze_opportunities := by
              simp [routeAfter, execNode, h2]
            rw [hr2]
            show _ :: _ :: runTrace env (9 + 1) _ .analyze_opportunities = _
            rw [runTrace_succ]
            have hr3 : routeAfter .analyze_opportunities (execNode env .analyze_opportunities
                (execNode env .research (execNode env .login (researchInit url creds profile)))) = none := by
              simp [routeAfter, execNode, h3]
            rw [hr3]
            rfl
          rw [ht] at hp
          rcases List.mem_cons.mp hp with rfl | hp
          · intro hc
            rw [herr1] at hc
            exact absurd hc (by decide)
          · rcases List.mem_cons.mp hp with rfl | hp
            · intro hc
              rw [hc] at h2
              exact absurd h2 (by decide)
            · rcases List.mem_cons.mp hp with rfl | hp
              · intro hc
                rw [hc] at h3
                exact absurd h3 (by decide)
              · exact absurd hp (List.not_mem_nil p)
        case pos =>
          have ht : researchTrace env url creds profile =
              [(NodeId.login, node_perform_login env.loginRes (researchInit url creds profile)),
               (NodeId.research, node_research_and_extract env.researchRes env.pagePeekLogs
                 (node_perform_login env.loginRes (researchInit url creds profile))),
               (NodeId.analyze_opportunities, (node_analyze_opportunities env.items
                 (node_research_and_extract env.researchRes env.pagePeekLogs
                   (node_perform_login env.loginRes (researchInit url creds profile)))).1),
               (NodeId.handle_error, handle_error_node ((node_analyze_opportunities env.items
                 (node_research_and_extract env.researchRes env.pagePeekLogs
                   (node_perform_login env.loginRes (researchInit url creds profile)))).1))] := by
            show runTrace env (11 + 1) (researchInit url creds profile) .login = _
            rw [runTrace_succ]
            have hr : routeAfter .login (execNode env .login (researchInit url creds profile))
                = some .research := by
              simp [routeAfter, execNode, hses]
            rw [hr]
            show _ :: runTrace env (10 + 1) _ .research = _
            rw [runTrace_succ]
            have hr2 : routeAfter .research (execNode env .research
                (execNode env .login (researchInit url creds profile))) = some .analyze_opportunities := by
              simp [routeAfter, execNode, h2]
            rw [hr2]
            show _ :: _ :: runTrace env (9 + 1) _ .analyze_opportunities = _
            rw [runTrace_succ]
            have hr3 : routeAfter .analyze_opportunities (execNode env .analyze_opportunities
                (execNode env .research (execNode env .login (researchInit url creds profile)))) = some .handle_error := by
              simp [routeAfter, execNode, h3]
            rw [hr3]
            show _ :: _ :: _ :: runTrace env (8 + 1) _ .handle_error = _
            rw [runTrace_succ]
            rfl
          rw [ht] at hp
          rcases List.mem_cons.mp hp with rfl | hp
          · intro hc
            rw [herr1] at hc
            exact absurd hc (by decide)
          · rcases List.mem_cons.mp hp with rfl | hp
            · intro hc
              rw [hc] at h2
              exact absurd h2 (by decide)
            · rcases List.mem_cons.mp hp with rfl | hp
              · intro _
                rw [ht]
                rfl
              · rcases List.mem_cons.mp hp with rfl | hp
                · intro _
                  rw [ht]
                  rfl
                · exact absurd hp (List.not_mem_nil p)
      case pos =>
        have ht : researchTrace env url creds profile =
            [(NodeId.login, node_perform_login env.loginRes (researchInit url creds profile)),
             (NodeId.research, node_research_and_extract env.researchRes env.pagePeekLogs
               (node_perform_login env.loginRes (researchInit url creds profile))),
             (NodeId.handle_error, handle_error_node (node_research_and_extract env.researchRes env.pagePeekLogs
               (node_perform_login env.loginRes (researchInit url creds profile))))] := by
          show runTrace env (11 + 1) (researchInit url creds profile) .login = _
          rw [runTrace_succ]
          have hr : routeAfter .login (execNode env .login (researchInit url creds profile))
              = some .research := by
            simp [routeAfter, execNode, hses]
          rw [hr]
          show _ :: runTrace env (10 + 1) _ .research = _
          rw [runTrace_succ]
          have hr2 : routeAfter .research (execNode env .research
              (execNode env .login (researchInit url creds profile))) = some .handle_error := by
            simp [routeAfter, execNode, h2]
          rw [hr2]
          show _ :: _ :: runTrace env (9 + 1) _ .handle_error = _
          rw [runTrace_succ]
          rfl
        rw [ht] at hp
        rcases List.mem_cons.mp hp with rfl | hp
        · intro hc
          rw [herr1] at hc
          exact absurd hc (by decide)
        · rcases List.mem_cons.mp hp with rfl | hp
          · intro _
            rw [ht]
            rfl
          · rcases List.mem_cons.mp hp with rfl | hp
            · intro _
              rw [ht]
              rfl
            · exact absurd hp (List.not_mem_nil p)
  · intro p hp
    have hw : writingTrace env details profile sect =
        [(NodeId.login, execNode env .login (writingInit details profile sect)),
         (NodeId.handle_error,
           handle_error_node (execNode env .login (writingInit details profile sect)))] := rfl
    rw [hw] at hp
    rcases List.mem_cons.mp hp with rfl | hp
    · intro _
      rfl
    · rcases List.mem_cons.mp hp with rfl | hp
      · intro _
        rfl
      · exact absurd hp (List.not_mem_nil p)

/-- A concrete oracle environment used to instantiate theorems. -/
def sampleEnv : Env where
  loginRes := .noDriver []
  pagePeekLogs := []
  researchRes := .ret [] []
  items := fun _ => ⟨.err "parse failure", .ret none, .ok⟩
  writer := fun _ => .ret "A draft."
  editor := fun _ => .ret "Needs work."
  sectionSave := .ret (some 1)

/-- Witness for C3: in a concrete writing invocation, the login node sets a
truthy error and the final state retains exactly that message. -/
theorem error_never_dropped_witness :
    truthyStr (execNode sampleEnv NodeId.login
        (writingInit none [("name", "Org")] "Needs Statement")).error_message = true
    ∧ (finalState (writingInit none [("name", "Org")] "Needs Statement")
          (writingTrace sampleEnv none [("name", "Org")] "Needs Statement")).error_message
        = (execNode sampleEnv NodeId.login
            (writingInit none [("name", "Org")] "Needs Statement")).error_message := by
  refine ⟨rfl, ?_⟩
  exact (error_never_dropped sampleEnv "x" [] [("name", "Org")] none "Needs Statement").2.1
    (NodeId.login, execNode sampleEnv NodeId.login
      (writingInit none [("name", "Org")] "Needs Statement"))
    (List.mem_cons_self _ _) rfl

/-! ## Claim C4 -/

/-- An item outcome on which the batch loop reaches the
`processed_count += 1` line: analysis parsed, save returned a truthy id,
update did not raise. -/
def itemFullSuccess (ie : ItemEnv) : Bool :=
  match ie.analysis with
  | .ok _ _ _ =>
      (match ie.saveRes with
       | .ret id? =>
           truthyNat id? && (match ie.updateRes with
             | .ok => true
             | .raises _ => false)
       | .raises _ => false)
  | _ => false

lemma processItem_failure {ie : ItemEnv} (g : Grant)
    (h : itemFullSuccess ie = false) :
    (processItem ie g).1.analysis_error.isSome = true := by
  rcases ie with ⟨a, sv, up⟩
  cases a with
  | raises m => rfl
  | err d => rfl
  | ok rat sc st =>
      cases sv with
      | raises m => rfl
      | ret id? =>
          by_cases hid : truthyNat id? = true
          · cases up with
            | raises m => simp [processItem, hid]
            | ok => simp [itemFullSuccess, hid] at h
          · rw [Bool.not_eq_true] at hid
            simp [processItem, hid]

lemma processItem_success {ie : ItemEnv} (g : Grant)
    (h : itemFullSuccess ie = true) (hg : g.analysis_error = none) :
    (processItem ie g).1.analysis_error = none
    ∧ (∃ n, (processItem ie g).1.database_id = some n
        ∧ ie.saveRes = SaveOutcome.ret (some n))
    ∧ (∃ rat sc st, ie.analysis = AnalysisOutcome.ok rat sc st
        ∧ (processItem ie g).1.analysis_rationale = some rat
        ∧ (processItem ie g).1.analysis_suitability_score = some sc
        ∧ (processItem ie g).1.analysis_status = some st) := by
  rcases ie with ⟨a, sv, up⟩
  cases a with
  | raises m => exact absurd h (by simp [itemFullSuccess])
  | err d => exact absurd h (by simp [itemFullSuccess])
  | ok rat sc st =>
      cases sv with
      | raises m => exact absurd h (by simp [itemFullSuccess])
      | ret id? =>
          simp only [itemFullSuccess, Bool.and_eq_true] at h
          obtain ⟨hid, hup⟩ := h
          cases up with
          | raises m => simp at hup
          | ok =>
              cases id? with
              | none => simp [truthyNat] at hid
              | some n =>
                  have hn : (n != 0) = true := hid
                  refine ⟨?_, ⟨n, ?_, rfl⟩, ⟨rat, sc, st, rfl, ?_, ?_, ?_⟩⟩ <;>
                    simp [processItem, truthyNat, hn, hg]

lemma analyzeLoop_length (l : List Grant) : ∀ items : Nat → ItemEnv,
    (analyzeLoop items l).1.length = l.length := by
  induction l with
  | nil => intro items; rfl
  | cons g rest ih =>
      intro items
      simp [analyzeLoop, ih]

lemma analyzeLoop_getElem (l : List Grant) : ∀ (items : Nat → ItemEnv) (i : Nat),
    i < l.length →
    (analyzeLoop items l).1[i]? = ((l[i]?).map (fun g => (processItem (items i) g).1)) := by
  induction l with
  | nil =>
      intro items i hi
      exact absurd hi (by simp)
  | cons g rest ih =>
      intro items i hi
      cases i with
      | zero => simp [analyzeLoop]
      | succ j =>
          have hj : j < rest.length := by simpa using hi
          have := ih (fun k => items (k + 1)) j hj
          simpa [analyzeLoop] using this

/-- A candidate record fresh from extraction. -/
def batchGrant1 : Grant := { title := some "Grant A" }

/-- A second candidate record fresh from extraction. -/
def batchGrant2 : Grant := { title := some "Grant B" }

/-- A state about to enter the score node with a profile and a two-item
batch. -/
def batchState : GMState where
  organization_profile := some [("name", "Org")]
  research_website_url := none
  research_login_credentials := none
  authenticated_driver_session := some ()
  extracted_grant_opportunities := some [batchGrant1, batchGrant2]
  current_grant_opportunity_id := none
  current_grant_details := none
  analysis_results := none
  current_section_name := none
  current_draft_content := none
  editor_feedback := none
  iteration_count := 0
  error_message := none
  log_messages := []
  next_node_to_call := none

/-- Oracle where every item's analysis comes back as an error dict. -/
def allFailItems : Nat → ItemEnv := fun _ => ⟨.err "parse failure", .ret none, .ok⟩

/-- Oracle where the first item fails analysis and the second item fully
succeeds with persisted id 2. -/
def mixedItems : Nat → ItemEnv := fun i =>
  if i == 0 then ⟨.err "parse failure", .ret none, .ok⟩
  else ⟨.ok "Good fit." 8 "analyzed_strong_match", .ret (some 2), .ok⟩

/-- Counterexample to C4's all-fail clause: on a two-item batch where every
item fails analysis, `node_analyze_opportunities` still returns
`error_message = None` with only per-item markers — it does not report a
node-level error. -/
theorem analyze_all_fail_reports_no_node_error :
    (node_analyze_opportunities allFailItems batchState).1.error_message = none
    ∧ (((node_analyze_opportunities allFailItems batchState).1.extracted_grant_opportunities.getD [])[0]?).map
        Grant.analysis_error = some (some "parse failure")
    ∧ (((node_analyze_opportunities allFailItems batchState).1.extracted_grant_opportunities.getD [])[1]?).map
        Grant.analysis_error = some (some "parse failure") :=
  ⟨rfl, rfl, rfl⟩

/-- Claim C4 as amended: for a non-empty batch with a profile present, the
node processes every item and returns `error_message = None` — also when
every item fails; failed items carry a per-item `analysis_error` marker and
fully successful items carry the persisted id and the analysis fields.  (A
node-level error arises only from the missing-profile prerequisite, cf.
C7.) -/
theorem analyze_batch_mixed_failures (items : Nat → ItemEnv) (s : GMState)
    (grants : List Grant)
    (hg : s.extracted_grant_opportunities = some grants)
    (hne : grants ≠ [])
    (hp : truthyDict s.organization_profile = true)
    (hfresh : ∀ g ∈ grants, g.analysis_error = none) :
    ((node_analyze_opportunities items s).1.error_message = none)
    ∧ (∃ out, (node_analyze_opportunities items s).1.extracted_grant_opportunities = some out
        ∧ out.length = grants.length
        ∧ ∀ i, i < grants.length →
            (itemFullSuccess (items i) = false →
              ∃ g2, out[i]? = some g2 ∧ g2.analysis_error.isSome = true)
            ∧ (itemFullSuccess (items i) = true →
              ∃ g2 n rat sc st, out[i]? = some g2
                ∧ g2.analysis_error = none
                ∧ g2.database_id = some n
                ∧ (items i).saveRes = SaveOutcome.ret (some n)
                ∧ (items i).analysis = AnalysisOutcome.ok rat sc st
                ∧ g2.analysis_rationale = some rat
                ∧ g2.analysis_suitability_score = some sc
                ∧ g2.analysis_status = some st)) := by
  have hempty : grants.isEmpty = false := by
    simpa [List.isEmpty_iff] using hne
  have hnode : (node_analyze_opportunities items s).1 =
      { s with extracted_grant_opportunities := some (analyzeLoop items grants).1,
               log_messages := s.log_messages ++ (analyzeLoop items grants).2.2.1 ++
                 [analyzeSummary (analyzeLoop items grants).2.1 grants.length],
               error_message := none } := by
    simp [node_analyze_opportunities, hg, hp, truthyList, hempty]
  refine ⟨by rw [hnode], ⟨(analyzeLoop items grants).1, by rw [hnode], analyzeLoop_length grants items, ?_⟩⟩
  intro i hi
  have hgetl := analyzeLoop_getElem grants items i hi
  have hgi : grants[i]? = some grants[i] := List.getElem?_eq_getElem hi
  constructor
  · intro hfail
    refine ⟨(processItem (items i) grants[i]).1, ?_, processItem_failure _ hfail⟩
    rw [hgetl, hgi]
    rfl
  · intro hsucc
    have hfr : grants[i].analysis_error = none :=
      hfresh _ (List.getElem_mem hi)
    obtain ⟨he, ⟨n, hdb, hsv⟩, ⟨rat, sc, st, ha, h1, h2, h3⟩⟩ :=
      processItem_success grants[i] hsucc hfr
    refine ⟨(processItem (items i) grants[i]).1, n, rat, sc, st, ?_, he, hdb, hsv, ha, h1, h2, h3⟩
    rw [hgetl, hgi]
    rfl

/-- Witness for C4 (amended): mixed two-item batch, first item fails,
second succeeds; the node reports no node-level error. -/
theorem analyze_batch_mixed_failures_witness :
    (node_analyze_opportunities mixedItems batchState).1.error_message = none :=
  (analyze_batch_mixed_failures mixedItems batchState [batchGrant1, batchGrant2]
    rfl (by decide) rfl (by decide)).1

/-! ## Claim C5 -/

/-- N successive invocations of the draft node with the given per-invocation
collaborator outcomes. -/
def iterateDraft (outs : List AgentTextOutcome) (s : GMState) : GMState :=
  outs.foldl (fun st o => node_draft_section o st) s

lemma draft_step_fields (o : AgentTextOutcome) {s : GMState}
    (h1 : truthyDict s.current_grant_details = true)
    (h2 : truthyDict s.organization_profile = true)
    (h3 : truthyStr s.current_section_name = true) :
    (node_draft_section o s).iteration_count = s.iteration_count + 1
    ∧ (node_draft_section o s).current_grant_details = s.current_grant_details
    ∧ (node_draft_section o s).organization_profile = s.organization_profile
    ∧ (node_draft_section o s).current_section_name = s.current_section_name := by
  cases o with
  | ret text =>
      by_cases he : pyStartsWith text "// Error" = true
      · simp [node_draft_section, h1, h2, h3, he]
      · rw [Bool.not_eq_true] at he
        simp [node_draft_section, h1, h2, h3, he]
  | raises m => simp [node_draft_section, h1, h2, h3]

lemma iterateDraft_count (outs : List AgentTextOutcome) : ∀ (s : GMState),
    truthyDict s.current_grant_details = true →
    truthyDict s.organization_profile = true →
    truthyStr s.current_section_name = true →
    (iterateDraft outs s).iteration_count = s.iteration_count + outs.length := by
  induction outs with
  | nil =>
      intro s _ _ _
      simp [iterateDraft]
  | cons o rest ih =>
      intro s h1 h2 h3
      obtain ⟨hit, hd, hpr, hn⟩ := draft_step_fields o h1 h2 h3
      have hrec := ih (node_draft_section o s)
        (by rw [hd]; exact h1) (by rw [hpr]; exact h2) (by rw [hn]; exact h3)
      have hfold : iterateDraft (o :: rest) s = iterateDraft rest (node_draft_section o s) := rfl
      rw [hfold, hrec, hit]
      simp [List.length_cons]
      omega

/-- Claim C5: starting from `iteration_count = 0` with the draft
prerequisites present, after N invocations of the draft node
`iteration_count` equals N, no matter whether each invocation's collaborator
succeeded, returned an error-marker string, or raised — the draft node
increments the counter on every entry that reaches the collaborator. -/
theorem draft_iteration_equals_invocations (outs : List AgentTextOutcome)
    (s : GMState)
    (h1 : truthyDict s.current_grant_details = true)
    (h2 : truthyDict s.organization_profile = true)
    (h3 : truthyStr s.current_section_name = true)
    (h0 : s.iteration_count = 0) :
    (iterateDraft outs s).iteration_count = outs.length := by
  rw [iterateDraft_count outs s h1 h2 h3, h0]
  simp

/-- Witness for C5: three invocations — an error-marker return, a raised
exception, then a success — leave the counter at 3. -/
theorem draft_iteration_equals_invocations_witness :
    (iterateDraft [AgentTextOutcome.ret "// Error boom", AgentTextOutcome.raises "kaput",
        AgentTextOutcome.ret "A fine draft."]
      { sampleReviewState with iteration_count := 0 }).iteration_count = 3 :=
  draft_iteration_equals_invocations _ _ rfl rfl rfl rfl

/-! ## Claim C6 -/

/-- Counterexample to C6: the score node does mutate objects reachable from
the input state — after running it on a concrete batch, the candidate maps
inside the caller's state carry new `analysis_error` keys, so the input
state object is no longer what it was. -/
theorem analyze_mutates_input_candidates :
    analyzeInputAfter allFailItems batchState ≠ batchState := by
  decide

/-- Claim C6 as amended: nodes never rebind fields of the input state — the
review node leaves the input untouched, and the score node's only in-place
effect is annotating the candidate maps aliased into
`extracted_grant_opportunities` (every other field of the input state is
unchanged). -/
theorem nodes_mutate_only_candidate_maps (out : AgentTextOutcome)
    (items : Nat → ItemEnv) (s : GMState) :
    reviewInputAfter out s = s
    ∧ analyzeInputAfter items s =
        { s with extracted_grant_opportunities :=
            (analyzeInputAfter items s).extracted_grant_opportunities } := by
  refine ⟨rfl, ?_⟩
  unfold analyzeInputAfter
  split
  · rfl
  · split
    · rfl
    · rfl

/-! ## Claim C7 -/

/-- Claim C7: when the organization profile is missing (falsy), the score
node sets the node-level error and returns at once — it performs no
collaborator call and no persistence-gateway call (empty effect list), and
only the error and log fields change. -/
theorem analyze_missing_profile_fail_fast (items : Nat → ItemEnv) (s : GMState)
    (h : truthyDict s.organization_profile = false) :
    (node_analyze_opportunities items s).1.error_message = some profileMissingMsg
    ∧ (node_analyze_opportunities items s).2 = []
    ∧ (node_analyze_opportunities items s).1.log_messages
        = s.log_messages ++ [profileMissingMsg]
    ∧ (node_analyze_opportunities items s).1.extracted_grant_opportunities
        = s.extracted_grant_opportunities := by
  refine ⟨?_, ?_, ?_, ?_⟩ <;> simp [node_analyze_opportunities, h]

/-- Witness for C7 at a concrete profile-less state. -/
theorem analyze_missing_profile_fail_fast_witness :
    (node_analyze_opportunities allFailItems
        { batchState with organization_profile := none }).1.error_message
      = some profileMissingMsg
    ∧ (node_analyze_opportunities allFailItems
        { batchState with organization_profile := none }).2 = [] :=
  ⟨(analyze_missing_profile_fail_fast allFailItems
      { batchState with organization_profile := none } rfl).1,
   (analyze_missing_profile_fail_fast allFailItems
      { batchState with organization_profile := none } rfl).2.1⟩

/-! ## Claim C8 -/

lemma maxVersionRow_eq_none {l : List SectionRow} :
    maxVersionRow l = none ↔ l = [] := by
  cases l with
  | nil => simp [maxVersionRow]
  | cons r rest =>
      simp only [List.cons_ne_nil, iff_false]
      intro h
      rw [maxVersionRow] at h
      cases hmv : maxVersionRow rest <;> rw [hmv] at h
      · simp at h
      · dsimp only [] at h
        split at h <;> simp at h

lemma maxVersionRow_spec : ∀ l : List SectionRow, l ≠ [] →
    ∃ r, maxVersionRow l = some r ∧ r ∈ l ∧ ∀ x ∈ l, x.version ≤ r.version := by
  intro l
  induction l with
  | nil => intro h; exact absurd rfl h
  | cons a rest ih =>
      intro _
      cases hmv : maxVersionRow rest with
      | none =>
          have hrest : rest = [] := maxVersionRow_eq_none.mp hmv
          subst hrest
          exact ⟨a, rfl, by simp, by simp⟩
      | some b =>
          have hne : rest ≠ [] := by
            intro h
            subst h
            simp [maxVersionRow] at hmv
          obtain ⟨r, hr, hmem, hmax⟩ := ih hne
          rw [hmv] at hr
          obtain rfl : b = r := by simpa using hr
          by_cases hlt : a.version < b.version
          · refine ⟨b, ?_, List.mem_cons_of_mem _ hmem, ?_⟩
            · simp [maxVersionRow, hmv, hlt]
            · intro x hx
              rcases List.mem_cons.mp hx with rfl | hx
              · exact le_of_lt hlt
              · exact hmax x hx
          · refine ⟨a, ?_, List.mem_cons_self _ _, ?_⟩
            · simp [maxVersionRow, hmv, hlt]
            · intro x hx
              rcases List.mem_cons.mp hx with rfl | hx
              · exact le_refl _
              · exact le_trans (hmax x hx) (not_lt.mp hlt)

/-- Claim C8: saving a section draft always inserts a new row at the end of
the table (existing rows untouched — never an update); retrieving with
`version = None` returns a stored row of maximal version among the rows of
that `(record id, section name)` pair; and after two successive saves of
the same pair with versions 1 and 2 into a table with no prior row for the
pair, the version-2 row is returned. -/
theorem section_draft_versioning :
    (∀ (db : DataDB) (gid : Int) (nm content : String) (v : Int) (fb : String),
        (save_section_draft db gid nm content v fb).1.sections
          = db.sections ++ [⟨db.sectionSeq + 1, gid, nm, content, v, fb⟩])
    ∧ (∀ (db : DataDB) (gid : Int) (nm : String), matchingSections db gid nm ≠ [] →
        ∃ r, get_section_draft db gid nm none = some r
          ∧ r ∈ matchingSections db gid nm
          ∧ ∀ x ∈ matchingSections db gid nm, x.version ≤ r.version)
    ∧ (∀ (db : DataDB) (gid : Int) (nm c1 f1 c2 f2 : String),
        matchingSections db gid nm = [] →
        get_section_draft
            (save_section_draft (save_section_draft db gid nm c1 1 f1).1 gid nm c2 2 f2).1
            gid nm none
          = some ⟨db.sectionSeq + 2, gid, nm, c2, 2, f2⟩) := by
  refine ⟨fun db gid nm content v fb => rfl, ?_, ?_⟩
  · intro db gid nm hne
    exact maxVersionRow_spec _ hne
  · intro db gid nm c1 f1 c2 f2 hempty
    have hm : matchingSections
        (save_section_draft (save_section_draft db gid nm c1 1 f1).1 gid nm c2 2 f2).1 gid nm
        = [⟨db.sectionSeq + 1, gid, nm, c1, 1, f1⟩, ⟨db.sectionSeq + 2, gid, nm, c2, 2, f2⟩] := by
      have hbase : db.sections.filter
          (fun r => r.grant_opportunity_id == gid && r.section_name == nm) = [] := hempty
      simp [matchingSections, save_section_draft, List.filter_append, hbase]
    rw [get_section_draft, hm]
    simp [maxVersionRow]

/-- Witness for C8 on the empty database: two saves of versions 1 and 2,
then retrieval of the latest returns the version-2 row. -/
theorem section_draft_versioning_witness :
    get_section_draft
        (save_section_draft (save_section_draft {} 1 "Needs Statement" "v1 text" 1 "fb1").1
          1 "Needs Statement" "v2 text" 2 "fb2").1
        1 "Needs Statement" none
      = some ⟨2, 1, "Needs Statement", "v2 text", 2, "fb2"⟩ :=
  section_draft_versioning.2.2 {} 1 "Needs Statement" "v1 text" "fb1" "v2 text" "fb2" rfl

/-! ## Claim C9 -/

/-- Claim C9: saving the organization profile deletes the prior rows and
inserts the new one, so two successive saves leave exactly one profile row
and it carries the data of the second call. -/
theorem profile_save_replaces_singleton (db : DataDB)
    (n1 m1 p1 d1 t1 n2 m2 p2 d2 t2 : String) :
    (save_organization_profile (save_organization_profile db n1 m1 p1 d1 t1)
        n2 m2 p2 d2 t2).profiles
      = [⟨db.profileSeq + 2, n2, m2, p2, d2, t2⟩]
    ∧ (save_organization_profile (save_organization_profile db n1 m1 p1 d1 t1)
        n2 m2 p2 d2 t2).profiles.length = 1 := by
  constructor
  · show [(⟨db.profileSeq + 1 + 1, n2, m2, p2, d2, t2⟩ : ProfileRow)] = _
    norm_num
  · rfl

end GrantMaster
